import Mathlib

/-!
Verification of the session/document lifecycle core of kdenlive
(`src/projectmanager.cpp`): project saving, autosave scheduling,
stale-autosave recovery, folder relocation and profile migration.

Each namespace below embeds one cluster of `ProjectManager` methods as pure
Lean functions.  External collaborators (Qt, KdenliveDoc, dialogs) enter the
model either as explicit state components with the semantics their call
sites rely on, or as oracle inputs supplying their results.
-/

namespace Kdenlive

/-! ## Atomic project save: `ProjectManager::testSaveFileAs` (lines 321-341)

The destination is written through a `QSaveFile`: `open` prepares a staging
target, `write` appends to it, and `commit` atomically renames the staging
target over the destination (discarding it on failure).  This is the
all-or-nothing replace discipline the spec requires of project-file writes;
we model the file system as the destination's current content
(`none` = file absent). -/

namespace AtomicSave

/-- State of a `QSaveFile`: the destination file's content and the staging
buffer (`some` once `open` succeeded). -/
structure QSaveFile where
  dest : Option String
  staged : Option String
  deriving DecidableEq, Repr

/-- `QSaveFile::open`: on success a fresh staging buffer is created; the
destination is never touched.  `ok` is the environment's verdict (permissions,
directory existence, ...). -/
def QSaveFile.openFile (f : QSaveFile) (ok : Bool) : QSaveFile × Bool :=
  if ok then ({ f with staged := some "" }, true) else (f, false)

/-- `QSaveFile::write`: appends to the staging buffer; a file that was never
opened ignores the write. -/
def QSaveFile.writeData (f : QSaveFile) (data : String) : QSaveFile :=
  match f.staged with
  | some buf => { f with staged := some (buf ++ data) }
  | none => f

/-- `QSaveFile::commit`: on success the staging buffer atomically replaces the
destination; on failure the staging buffer is discarded and the destination
keeps its previous content. -/
def QSaveFile.commitFile (f : QSaveFile) (ok : Bool) : QSaveFile × Bool :=
  match f.staged, ok with
  | some buf, true => ({ dest := some buf, staged := none }, true)
  | _, _ => ({ f with staged := none }, false)

/-- `ProjectManager::testSaveFileAs` (lines 321-341): serialize the scene,
open a `QSaveFile` on the destination, write the serialized text, commit.
Returns `false` on a failed open (line 330-333) or a failed commit
(line 336-339), `true` otherwise; the pair's second component is the
destination's content afterwards. -/
def testSaveFileAs (scene : String) (dest0 : Option String)
    (openOk commitOk : Bool) : Bool × Option String :=
  let file : QSaveFile := { dest := dest0, staged := none }
  let (file, opened) := file.openFile openOk
  if !opened then
    (false, file.dest)
  else
    let file := file.writeData scene
    let (file, committed) := file.commitFile commitOk
    if !committed then
      (false, file.dest)
    else
      (true, file.dest)

end AtomicSave

/-! ## `ProjectManager::saveFileAs(outputFileName, saveACopy)` (lines 394-488)

Only the document-state observables named by the spec are tracked: the
document's bound url, its modified flag, the autosave companion's path and
(for fidelity, since it is mutated before the write) the subtitle target.
`KdenliveDoc::saveSceneList`'s success is an oracle input; the md5 hash used
to derive the companion name is an opaque parameter. -/

namespace Save

/-- The `KdenliveDoc` observables mutated by `saveFileAs`. -/
structure DocState where
  url : Option String
  modified : Bool
  autosavePath : Option String
  subtitleTarget : Option String
  deriving DecidableEq, Repr

/-- Companion path derived from the output file name (line 437-438):
`<md5(fileName)>.kdenlive` next to the project file.  The hash is opaque. -/
def autosaveCompanionPath (hash : String → String) (outputFileName : String) : String :=
  hash outputFileName ++ ".kdenlive"

/-- `ProjectManager::saveFileAs` (lines 394-488).  In order: the subtitle is
retargeted (line 408), the scene is serialized and the replacement pattern
applied (lines 409-416), then `saveSceneList` writes the destination
(line 417); on write failure the function returns `false` at once
(lines 417-419).  Only on success, and when not saving a copy, are the url,
the autosave companion and the modified flag updated (lines 431-448). -/
def saveFileAs (hash : String → String) (st : DocState) (outputFileName : String)
    (saveACopy : Bool) (saveSceneListOk : Bool) : Bool × DocState :=
  let st := { st with subtitleTarget := some outputFileName }
  if !saveSceneListOk then
    (false, st)
  else
    let st :=
      if !saveACopy then
        { st with
          url := some outputFileName,
          autosavePath := some (autosaveCompanionPath hash outputFileName),
          modified := false }
      else st
    (true, st)

end Save

/-! ## Autosave scheduler: `slotStartAutoSave` (836-845) and `slotAutoSave` (847-866) -/

/-- Does `hay` start with `needle`?  (`QString::startsWith`, on character
lists.) -/
def charsLeadWith : List Char → List Char → Bool
  | [], _ => true
  | _ :: _, [] => false
  | n :: ns, h :: hs => n == h && charsLeadWith ns hs

/-- Does `hay` contain `needle` as a contiguous run?  (`QString::contains`,
on character lists.) -/
def charsContain (hay needle : List Char) : Bool :=
  match hay with
  | [] => charsLeadWith needle []
  | _ :: rest => charsLeadWith needle hay || charsContain rest needle

namespace Autosave

/-- `scene.contains("<track ")`: the minimal structural marker of a
non-corrupted scene. -/
def sceneHasTrack (scene : String) : Bool :=
  charsContain scene.data "<track ".data

/-- The replacement-pattern rewrite applied to freshly serialized scene text
(lines 852-858); an empty pattern leaves the text unchanged, matching the
`isEmpty` guard in the source. -/
def applyReplacementPattern (pattern : List (String × String)) (scene : String) : String :=
  pattern.foldl (fun sc kv => sc.replace kv.1 kv.2) scene

/-- Outcome of one `slotAutoSave` run: the text written to the autosave
companion (if any), whether the corruption warning was shown, and whether
`m_lastSave` was restarted. -/
structure AutoSaveResult where
  written : Option String
  corruptionWarning : Bool
  lastSaveRestarted : Bool
  deriving DecidableEq, Repr

/-- `ProjectManager::slotAutoSave` (lines 847-866): serialize, apply the
replacement pattern, and skip the write with a corruption warning when the
text holds no `"<track "` marker (lines 859-863); otherwise hand the text to
`KdenliveDoc::slotAutoSave` and restart `m_lastSave` (lines 864-865). -/
def slotAutoSave (sceneRaw : String) (pattern : List (String × String)) : AutoSaveResult :=
  let scene := applyReplacementPattern pattern sceneRaw
  if !sceneHasTrack scene then
    { written := none, corruptionWarning := true, lastSaveRestarted := false }
  else
    { written := some scene, corruptionWarning := false, lastSaveRestarted := true }

/-- Scheduler state: the single-shot `m_autoSaveTimer` (armed with an interval
in ms, or stopped) and `m_lastSave.elapsed()` in ms. -/
structure SchedulerState where
  timerArmed : Option Nat
  lastSaveElapsedMs : Nat
  deriving DecidableEq, Repr

/-- `ProjectManager::slotStartAutoSave` (lines 836-845): if the last save is
more than 300000 ms old the timer is stopped and `slotAutoSave` runs at once;
otherwise the single-shot timer is (re)armed at 3000 ms.  Returns the new
scheduler state and the immediate autosave outcome, if one ran. -/
def slotStartAutoSave (st : SchedulerState) (sceneRaw : String)
    (pattern : List (String × String)) : SchedulerState × Option AutoSaveResult :=
  if 300000 < st.lastSaveElapsedMs then
    let st := { st with timerArmed := none }
    let r := slotAutoSave sceneRaw pattern
    ({ st with lastSaveElapsedMs := if r.lastSaveRestarted then 0 else st.lastSaveElapsedMs },
      some r)
  else
    ({ st with timerArmed := some 3000 }, none)

end Autosave

/-! ## Scene serialization side effects: `projectSceneList` (lines 868-896)

The editing-session toggles the method touches.  `slotMultitrackView`,
`updatePreviewConnection` and the trimming-mode requests are collaborator
calls that set the corresponding toggle; the source reads each toggle first
and only restores the ones that were active. -/

namespace Serialize

/-- The four editing-session toggles `projectSceneList` manipulates. -/
structure SessionToggles where
  multiTrackView : Bool
  previewConnected : Bool
  trimmingMode : Bool
  mixerPaused : Bool
  deriving DecidableEq, Repr

/-- `TimelineController::slotMultitrackView(b, _)`. -/
def slotMultitrackView (b : Bool) (st : SessionToggles) : SessionToggles :=
  { st with multiTrackView := b }

/-- `TimelineController::updatePreviewConnection(b)`. -/
def updatePreviewConnection (b : Bool) (st : SessionToggles) : SessionToggles :=
  { st with previewConnected := b }

/-- `TimelineController::requestEndTrimmingMode()`. -/
def requestEndTrimmingMode (st : SessionToggles) : SessionToggles :=
  { st with trimmingMode := false }

/-- `TimelineController::requestStartTrimmingMode()`. -/
def requestStartTrimmingMode (st : SessionToggles) : SessionToggles :=
  { st with trimmingMode := true }

/-- Modelled from the spec: `MixerManager::pauseMonitoring(bool)` is not part
of the excerpt (the mixer is an external collaborator); the call is a plain
setter of the mixer's paused flag to its argument, which is the surface the
call sites `pauseMonitoring(true)` / `pauseMonitoring(false)` rely on. -/
def pauseMonitoring (b : Bool) (st : SessionToggles) : SessionToggles :=
  { st with mixerPaused := b }

/-- `ProjectManager::projectSceneList` (lines 868-896): record which toggles
are active, disable them, pause mixer monitoring, serialize
(`m_mainTimelineModel->sceneList` runs between the two `pauseMonitoring`
calls), unpause monitoring, and re-enable exactly the toggles that were
active.  Returns the toggle state at return time. -/
def projectSceneList (st : SessionToggles) : SessionToggles :=
  let isMultiTrack := st.multiTrackView
  let hasPreview := st.previewConnected
  let isTrimming := st.trimmingMode
  let st := if isMultiTrack then slotMultitrackView false st else st
  let st := if hasPreview then updatePreviewConnection false st else st
  let st := if isTrimming then requestEndTrimmingMode st else st
  let st := pauseMonitoring true st
  let st := pauseMonitoring false st
  let st := if isMultiTrack then slotMultitrackView true st else st
  let st := if hasPreview then updatePreviewConnection true st else st
  let st := if isTrimming then requestStartTrimmingMode st else st
  st

end Serialize

/-! ## Folder relocation: `slotMoveFinished` (lines 1053-1074) -/

namespace Relocation

/-- Observable lifecycle events emitted while finishing a relocation: a save
(recording the replacement pattern in force during it) and a revert. -/
inductive Ev
  | save (pattern : List (String × String))
  | revert
  deriving DecidableEq, Repr

/-- `QMap::insert`: the new binding replaces any existing binding of the key. -/
def insertPattern (m : List (String × String)) (k v : String) : List (String × String) :=
  (k, v) :: m.filter (fun p => p.1 ≠ k)

/-- `QString::startsWith` (line 1062), on the characters of the two paths. -/
def pathStartsWith (s pre : String) : Bool :=
  charsLeadWith pre.data s.data

/-- Result of `slotMoveFinished`: the emitted events in order, the replacement
pattern left behind, the document's temp-folder pointer, and whether the
error path ran. -/
structure MoveResult where
  events : List Ev
  patternAfter : List (String × String)
  projectFolder : String
  errorShown : Bool
  deriving DecidableEq, Repr

/-- `ProjectManager::slotMoveFinished` (lines 1053-1074).  On job success:
if the old temp folder lies inside the project file's directory
(`srcDir.absolutePath().startsWith(projectDir.absolutePath())`, line 1062)
the pattern maps the relative key `">proxy/"` to
`">" + newFolder + "/proxy/"` (line 1063), otherwise it maps the full
`projectTempFolder() + "/proxy/"` to `newFolder + "/proxy/"` (line 1065);
the folder pointer moves to `newFolder` (line 1067), `saveFile()` runs with
the pattern in force (line 1068), the pattern is cleared (line 1069) and a
revert follows (line 1070).  On job failure only an error is shown. -/
def slotMoveFinished (jobOk : Bool) (newFolder projectDirPath tempFolder : String)
    (pattern0 : List (String × String)) (folder0 : String) : MoveResult :=
  if jobOk then
    let pat :=
      if pathStartsWith tempFolder projectDirPath then
        insertPattern pattern0 (">proxy/") (">" ++ newFolder ++ "/proxy/")
      else
        insertPattern pattern0 (tempFolder ++ "/proxy/") (newFolder ++ "/proxy/")
    { events := [Ev.save pat, Ev.revert],
      patternAfter := [],
      projectFolder := newFolder,
      errorShown := false }
  else
    { events := [],
      patternAfter := pattern0,
      projectFolder := folder0,
      errorShown := true }

end Relocation

/-! ## Stale-State Detector: `checkForBackupFile` (lines 575-614)

`KAutoSaveFile::staleFiles` enumerates the autosave companions matching the
target's identity; attempting `open(QIODevice::ReadWrite)` on one acquires its
exclusive lock, which succeeds exactly when no live kdenlive instance holds
it.  Deleting a `KAutoSaveFile` object removes the underlying file exactly
when this process holds its lock (i.e. the open succeeded), so the final
cleanup loop (lines 609-612) removes the lock-acquirable candidates and
leaves live ones untouched. -/

namespace Detector

/-- One candidate companion file: an identity, whether its exclusive lock can
be acquired (`open(ReadWrite)` succeeds), and its modification time. -/
structure StaleFile where
  fileId : Nat
  lockable : Bool
  mtime : Int
  deriving DecidableEq, Repr

/-- The modification-time test of line 593: the target file's own mtime is
absent (`!sourceTime.isValid()`) or older than the candidate's. -/
def newerThanSource (sourceTime : Option Int) (s : StaleFile) : Bool :=
  match sourceTime with
  | none => true
  | some t => decide (t < s.mtime)

/-- The selection loop (lines 589-599): the first candidate in enumeration
order whose lock is acquired and whose mtime beats the source wins
(`break`); lock-acquirable candidates that fail the mtime test are passed
over, locked candidates are skipped entirely. -/
def findOrphaned (sourceTime : Option Int) : List StaleFile → Option StaleFile
  | [] => none
  | s :: rest =>
    if s.lockable && newerThanSource sourceTime s then some s
    else findOrphaned sourceTime rest

/-- Outcome of `checkForBackupFile`: the candidate offered in the recovery
prompt (if any), the candidate handed to `doOpenFile` (if the user accepted),
the candidates whose files were removed by the cleanup loop, and the
function's return value. -/
structure CheckResult where
  offered : Option StaleFile
  openedAsDocument : Option StaleFile
  deleted : List StaleFile
  recovered : Bool
  deriving DecidableEq, Repr

/-- `ProjectManager::checkForBackupFile` (lines 575-614): find an orphaned
candidate (lines 586-599); if one is found and the user accepts the recovery
prompt, open it as the document and return `true` immediately — the cleanup
loop does not run (lines 601-607).  Otherwise every candidate is lock-opened
and its object deleted (lines 609-612), which removes exactly the
lock-acquirable ones, and the function returns `false`. -/
def checkForBackupFile (staleFiles : List StaleFile) (sourceTime : Option Int)
    (userAccepts : Bool) : CheckResult :=
  match findOrphaned sourceTime staleFiles with
  | some o =>
    if userAccepts then
      { offered := some o, openedAsDocument := some o, deleted := [], recovered := true }
    else
      { offered := some o, openedAsDocument := none,
        deleted := staleFiles.filter (fun s => s.lockable), recovered := false }
  | none =>
    { offered := none, openedAsDocument := none,
      deleted := staleFiles.filter (fun s => s.lockable), recovered := false }

/-- The spec's selection rule, stated from its words (to be compared with
`checkForBackupFile`, which keeps the first qualifying candidate in
enumeration order): whenever a candidate is offered, every lock-acquirable
candidate passing the modification-time test has modification time at most
the offered one's — the offered candidate is the newest qualifying one. -/
def OffersNewestQualifying : Prop :=
  ∀ (staleFiles : List StaleFile) (sourceTime : Option Int) (userAccepts : Bool)
    (o : StaleFile),
    (checkForBackupFile staleFiles sourceTime userAccepts).offered = some o →
    ∀ s ∈ staleFiles, s.lockable = true → newerThanSource sourceTime s = true →
      s.mtime ≤ o.mtime

end Detector

/-! ## Profile migration: `saveWithUpdatedProfile` (lines 1176-1344)

The guide records stored in the `main_bin` playlist's
`kdenlive:docproperties.guides` JSON are rewritten: every record carrying a
position is rescaled by `fpsRatio = newFps / oldFps` through `qRound`
(lines 1268-1295); records without a position are skipped.  The double
arithmetic of the source is modelled by exact rationals. -/

namespace Migration

/-- Qt's `qRound`: round to nearest, halves away from zero
(`int(d + 0.5)` for non-negative `d`, `int(d - 0.5)` otherwise, where `int`
truncates toward zero). -/
def qRound (x : ℚ) : ℤ :=
  if 0 ≤ x then ⌊x + 1 / 2⌋ else ⌈x - 1 / 2⌉

/-- One guide/marker record of the guides JSON array: an optional position
(`none` when the record carries no `"pos"` key), a comment and a type. -/
structure Guide where
  pos : Option ℤ
  comment : String
  gtype : ℤ
  deriving DecidableEq, Repr

/-- The fps ratio of line 1211: `newProfile->fps() / pCore->getCurrentFps()`. -/
def fpsRatio (newFps oldFps : ℚ) : ℚ := newFps / oldFps

/-- Rewrite of one guide record (lines 1276-1292): records without a position
are skipped (dropped from the updated list); otherwise the position becomes
`qRound(double(pos) * fpsRatio)` and comment and type are carried over. -/
def updateGuide (ratio : ℚ) (g : Guide) : Option Guide :=
  match g.pos with
  | none => none
  | some p => some { g with pos := some (qRound (p * ratio)) }

/-- The guides-array rewrite (lines 1273-1293). -/
def updateGuides (ratio : ℚ) (gs : List Guide) : List Guide :=
  gs.filterMap (updateGuide ratio)

end Migration

/-! ## Session Controller: `doOpenFile` and its recovery web (lines 191-307,
343-392, 575-614, 659-774, 795-829, 1076-1145)

`doOpenFile`, `newFile`, `checkForBackupFile`, `slotOpenBackup`,
`requestBackup` and `updateTimeline` call each other (a failed open offers a
backup, a declined backup falls back to a fresh blank document, whose check
for an orphaned autosave may re-enter `doOpenFile`, ...).  We model them as a
fuel-indexed interpreter over the observable controller state: the active
document (`m_project`) and a clock indexing the oracle answers of the
environment (dialog choices, `KdenliveDoc::Open` results, timeline-builder
verdicts).  Disk-only effects (stale-file removal, backup copies) are outside
the tracked state. -/

namespace Session

/-- How the active document came to be. -/
inductive DocKind
  | blank
  | loaded
  deriving DecidableEq, Repr

/-- The observables of the active `KdenliveDoc`: its origin, whether
`updateTimeline` completed for it (`built` — a document whose timeline was
never constructed is the "half-constructed" state the spec forbids), its
modified flag, and whether its bound url is empty. -/
structure Doc where
  kind : DocKind
  built : Bool
  modified : Bool
  urlEmpty : Bool
  deriving DecidableEq, Repr

/-- Result of `KdenliveDoc::Open`: `isSuccessful`, `isAborted`, or an error. -/
inductive OpenResult
  | success
  | aborted
  | failure
  deriving DecidableEq, Repr

/-- Answers of `KMessageBox::warningTwoActionsCancel`. -/
inductive ThreeWay
  | primary
  | secondary
  | cancel
  deriving DecidableEq, Repr

/-- The environment's oracle answers, indexed by the controller's clock:
results of the external calls and the user's dialog choices. -/
structure Env where
  openResult : Nat → OpenResult
  backupOrRecover : Nat → ThreeWay
  docUrlEmpty : Nat → Bool
  openDocModified : Nat → Bool
  urlUntitled : Nat → Bool
  tractorOk : Nat → Bool
  constructOk : Nat → Bool
  requestBackupContinue : Nat → Bool
  backupDialogAccept : Nat → Bool
  orphanFound : Nat → Bool
  recoverPromptAccept : Nat → Bool
  closePromptAnswer : Nat → ThreeWay
  saveOk : Nat → Bool

/-- Controller state: the active document (`m_project`, `none` = NoDocument)
and the oracle clock. -/
structure St where
  project : Option Doc
  clock : Nat
  deriving Repr

/-- Advance the oracle clock by one consultation. -/
def bump (st : St) : St := { st with clock := st.clock + 1 }

/-- `m_project->isModified()` guarded by `m_project != nullptr`. -/
def projectModified (st : St) : Bool :=
  match st.project with
  | some d => d.modified
  | none => false

/-- `ProjectManager::closeCurrentDocument(saveChanges, quit = false)`
(lines 343-392): when the document is modified and `saveChanges` holds, the
Save/Discard/Cancel prompt runs — Cancel (or a failed save) returns `false`
with the document untouched; otherwise the document is torn down and
destroyed (`m_project = nullptr`, line 385-386) and `true` is returned. -/
def closeCurrentDocument (env : Env) (st : St) (saveChanges : Bool) : St × Bool :=
  if projectModified st && saveChanges then
    let ans := env.closePromptAnswer st.clock
    let st := bump st
    match ans with
    | ThreeWay.primary =>
      -- Save: `if (!saveFile()) return false;` (lines 357-360)
      let ok := env.saveOk st.clock
      let st := bump st
      if ok then ({ st with project := none }, true) else (st, false)
    | ThreeWay.cancel => (st, false)
    | ThreeWay.secondary => ({ st with project := none }, true)
  else
    ({ st with project := none }, true)

mutual

/-- `ProjectManager::updateTimeline` (lines 1091-1145): an empty tractor
(line 1099) or a failed `constructTimelineFromMelt` (line 1114) triggers
`requestBackup` and returns `false`; on success the active document's
timeline is built and `true` is returned. -/
def updateTimeline : Nat → Env → St → Option (St × Bool)
  | 0, _, _ => none
  | fuel + 1, env, st =>
    let tOk := env.tractorOk st.clock
    let st := bump st
    if !tOk then
      match requestBackup fuel env st with
      | none => none
      | some st => some (st, false)
    else
      let cOk := env.constructOk st.clock
      let st := bump st
      if !cOk then
        match requestBackup fuel env st with
        | none => none
        | some st => some (st, false)
      else
        some ({ st with project := st.project.map (fun d => { d with built := true }) }, true)

/-- `ProjectManager::requestBackup` (lines 1076-1089): clear the modified
flag, then either try `slotOpenBackup` (falling back to `newFile` when the
backup dialog produced nothing) or go straight to `newFile`. -/
def requestBackup : Nat → Env → St → Option St
  | 0, _, _ => none
  | fuel + 1, env, st =>
    let st : St := { st with project := st.project.map (fun d => { d with modified := false }) }
    let cont := env.requestBackupContinue st.clock
    let st := bump st
    if cont then
      match slotOpenBackup fuel env st with
      | none => none
      | some (st, true) => some st
      | some (st, false) => newFile fuel env st
    else
      newFile fuel env st

/-- `ProjectManager::slotOpenBackup` (lines 795-829): if the backup chooser is
accepted, close the current document without saving and `doOpenFile` the
chosen backup (`isBackup = true`); when a document is active afterwards it is
retargeted to the original project file and marked modified (lines 816-825)
and the result is `true`.  A declined chooser changes nothing. -/
def slotOpenBackup : Nat → Env → St → Option (St × Bool)
  | 0, _, _ => none
  | fuel + 1, env, st =>
    let accept := env.backupDialogAccept st.clock
    let st := bump st
    if accept then
      let (st, _) := closeCurrentDocument env st false
      match doOpenFile fuel env st false true with
      | none => none
      | some st =>
        match st.project with
        | some d =>
          let d := if !d.urlEmpty then { d with modified := true } else d
          some ({ st with project := some d }, true)
        | none => some (st, false)
    else
      some (st, false)

/-- `ProjectManager::checkForBackupFile` (lines 575-614) as seen by the
session controller: the stale-file scan is abstracted to its outcome (an
orphaned candidate found or not — see `Detector.checkForBackupFile` for the
scan itself).  An accepted recovery re-enters `doOpenFile` with the stale
file and returns `true`; everything else returns `false` with only disk
effects. -/
def checkForBackupFile : Nat → Env → St → Option (St × Bool)
  | 0, _, _ => none
  | fuel + 1, env, st =>
    let found := env.orphanFound st.clock
    let st := bump st
    if found then
      let accept := env.recoverPromptAccept st.clock
      let st := bump st
      if accept then
        match doOpenFile fuel env st true false with
        | none => none
        | some st => some (st, true)
      else
        some (st, false)
    else
      some (st, false)

/-- `ProjectManager::newFile(showProjectSettings = false)` (lines 200-307):
first look for an orphaned `_untitled` autosave (line 203; a successful
recovery is the whole operation), then close the current document (line 222;
a refused close aborts), then construct a fresh blank `KdenliveDoc`
(lines 286-291) and build its timeline — `updateTimeline`'s result is
ignored (line 292). -/
def newFile : Nat → Env → St → Option St
  | 0, _, _ => none
  | fuel + 1, env, st =>
    match checkForBackupFile fuel env st with
    | none => none
    | some (st, true) => some st
    | some (st, false) =>
      let (st, closed) := closeCurrentDocument env st true
      if !closed then
        some st
      else
        let st : St := { st with
          project := some { kind := DocKind.blank, built := false,
                            modified := false, urlEmpty := true } }
        match updateTimeline fuel env st with
        | none => none
        | some (st, _) => some st

/-- `ProjectManager::doOpenFile(url, stale, isBackup)` (lines 659-774).
A failed non-backup open offers Open Backup / Recover / Cancel
(lines 683-700): Open Backup runs `slotOpenBackup` and then — the original
open result still being unsuccessful — falls through to the blank-document
fallback of lines 709-714, Recover retries `KdenliveDoc::Open` in lenient
mode, and Cancel (like an aborted open, or a failed open of a backup file)
falls back to `newFile(false)`.  A successful open continues in
`finishOpen`. -/
def doOpenFile : Nat → Env → St → Bool → Bool → Option St
  | 0, _, _, _, _ => none
  | fuel + 1, env, st, staleGiven, isBackup =>
    let r0 := env.openResult st.clock
    let st := bump st
    if r0 = OpenResult.failure ∧ isBackup = false then
      let ans := env.backupOrRecover st.clock
      let st := bump st
      match ans with
      | ThreeWay.primary =>
        match slotOpenBackup fuel env st with
        | none => none
        | some (st, _) => newFile fuel env st
      | ThreeWay.secondary =>
        let r1 := env.openResult st.clock
        let st := bump st
        if r1 = OpenResult.success then
          finishOpen fuel env st staleGiven
        else
          newFile fuel env st
      | ThreeWay.cancel => newFile fuel env st
    else if r0 ≠ OpenResult.success then
      newFile fuel env st
    else
      finishOpen fuel env st staleGiven

/-- The tail of a successful `doOpenFile` (lines 717-773): adopt the opened
document — when it came from a stale autosave, lines 732-744 compute
`loadingFailed = doc->url().isEmpty()`, keep an `_untitled` recovery unnamed,
and end with `setModified(!loadingFailed)` — make it the active project
(line 756) and run `updateTimeline` (lines 759-765); on failure the method
returns right away, `requestBackup` having already run inside
`updateTimeline`. -/
def finishOpen : Nat → Env → St → Bool → Option St
  | 0, _, _, _ => none
  | fuel + 1, env, st, staleGiven =>
    let urlEmpty0 := env.docUrlEmpty st.clock
    let st := bump st
    let d : Doc :=
      if staleGiven then
        let untitled := env.urlUntitled st.clock
        { kind := DocKind.loaded, built := false,
          modified := !urlEmpty0, urlEmpty := untitled || urlEmpty0 }
      else
        { kind := DocKind.loaded, built := false,
          modified := env.openDocModified st.clock, urlEmpty := urlEmpty0 }
    let st := bump st
    let st : St := { st with project := some d }
    match updateTimeline fuel env st with
    | none => none
    | some (st, _) => some st

end

/-- A state all of whose documents are either fully built or unmodified: the
states from which the fallback web may be entered (a modified half-built
document could make `closeCurrentDocument`'s prompt abort a fallback;
`requestBackup` clears the flag before entering it, line 1080). -/
def okSt (st : St) : Prop :=
  ∀ d, st.project = some d → (d.built = true ∨ d.modified = false)

/-- A state holding a fully constructed active document. -/
def goodSt (st : St) : Prop :=
  ∃ d, st.project = some d ∧ d.built = true

/-- An environment in which every external call succeeds at once. -/
def envAllOk : Env where
  openResult := fun _ => OpenResult.success
  backupOrRecover := fun _ => ThreeWay.cancel
  docUrlEmpty := fun _ => false
  openDocModified := fun _ => false
  urlUntitled := fun _ => false
  tractorOk := fun _ => true
  constructOk := fun _ => true
  requestBackupContinue := fun _ => false
  backupDialogAccept := fun _ => false
  orphanFound := fun _ => false
  recoverPromptAccept := fun _ => false
  closePromptAnswer := fun _ => ThreeWay.secondary
  saveOk := fun _ => true

end Session

/-! ## Theorems -/

namespace Detector

/-- A candidate returned by the selection loop was lock-opened and passed the
modification-time test. -/
theorem findOrphaned_qualifies {sourceTime : Option Int} :
    ∀ {l : List StaleFile} {o : StaleFile}, findOrphaned sourceTime l = some o →
      o.lockable = true ∧ newerThanSource sourceTime o = true := by
  intro l
  induction l with
  | nil => intro o h; simp [findOrphaned] at h
  | cons s rest ih =>
    intro o h
    rw [findOrphaned] at h
    split at h
    · rename_i hcond
      cases h
      simpa using hcond
    · exact ih h

/-- The selection loop returns the first qualifying candidate: everything
before it in enumeration order fails the lock-or-mtime test. -/
theorem findOrphaned_first {sourceTime : Option Int} :
    ∀ {l : List StaleFile} {o : StaleFile}, findOrphaned sourceTime l = some o →
      ∃ l1 l2, l = l1 ++ o :: l2 ∧
        ∀ s ∈ l1, (s.lockable && newerThanSource sourceTime s) = false := by
  intro l
  induction l with
  | nil => intro o h; simp [findOrphaned] at h
  | cons s rest ih =>
    intro o h
    rw [findOrphaned] at h
    split at h
    · cases h
      exact ⟨[], rest, rfl, by simp⟩
    · rename_i hcond
      obtain ⟨l1, l2, hsplit, hfail⟩ := ih h
      refine ⟨s :: l1, l2, by simp [hsplit], ?_⟩
      intro t ht
      rcases List.mem_cons.mp ht with h1 | h2
      · subst h1; simpa using hcond
      · exact hfail t h2

/-- When no candidate qualifies the selection loop returns nothing. -/
theorem findOrphaned_none {sourceTime : Option Int} :
    ∀ {l : List StaleFile},
      (∀ s ∈ l, (s.lockable && newerThanSource sourceTime s) = false) →
      findOrphaned sourceTime l = none := by
  intro l
  induction l with
  | nil => intro _; rfl
  | cons s rest ih =>
    intro hall
    rw [findOrphaned]
    rw [hall s (List.mem_cons_self s rest)]
    exact ih fun t ht => hall t (List.mem_cons_of_mem s ht)

/-- The offer shown by `checkForBackupFile` is the selection loop's result. -/
theorem checkForBackupFile_offered (staleFiles : List StaleFile)
    (sourceTime : Option Int) (userAccepts : Bool) :
    (checkForBackupFile staleFiles sourceTime userAccepts).offered =
      findOrphaned sourceTime staleFiles := by
  unfold checkForBackupFile
  cases findOrphaned sourceTime staleFiles <;> cases userAccepts <;> simp

/-- A candidate is opened as a document exactly when it was offered and the
user accepted the recovery prompt. -/
theorem checkForBackupFile_openedAsDocument (staleFiles : List StaleFile)
    (sourceTime : Option Int) (userAccepts : Bool) :
    (checkForBackupFile staleFiles sourceTime userAccepts).openedAsDocument =
      (if userAccepts then findOrphaned sourceTime staleFiles else none) := by
  unfold checkForBackupFile
  cases findOrphaned sourceTime staleFiles <;> cases userAccepts <;> simp

/-- The cleanup loop removes exactly the lock-acquirable candidates, and runs
exactly when no recovery was accepted. -/
theorem checkForBackupFile_deleted (staleFiles : List StaleFile)
    (sourceTime : Option Int) (userAccepts : Bool) :
    (checkForBackupFile staleFiles sourceTime userAccepts).deleted =
      (if userAccepts && (findOrphaned sourceTime staleFiles).isSome then []
        else staleFiles.filter (fun s => s.lockable)) := by
  unfold checkForBackupFile
  cases findOrphaned sourceTime staleFiles <;> cases userAccepts <;> simp

/-- A locked (non-lock-acquirable) companion survives the cleanup loop. -/
theorem not_mem_filter_lockable {s : StaleFile} (hlock : s.lockable = false)
    (l : List StaleFile) : s ∉ l.filter (fun t => t.lockable) := by
  intro hmem
  have := (List.mem_filter.mp hmem).2
  rw [hlock] at this
  cases this

/-- C3: the Stale-State Detector never offers a companion whose exclusive
lock cannot be acquired: any offered candidate is lock-acquirable, and a
locked (live) companion is neither deleted by the cleanup loop nor opened as
a document. -/
theorem checkForBackupFile_skips_locked (staleFiles : List StaleFile)
    (sourceTime : Option Int) (userAccepts : Bool) :
    (∀ o, (checkForBackupFile staleFiles sourceTime userAccepts).offered = some o →
      o.lockable = true) ∧
    (∀ s, s ∈ staleFiles → s.lockable = false →
      s ∉ (checkForBackupFile staleFiles sourceTime userAccepts).deleted ∧
      (checkForBackupFile staleFiles sourceTime userAccepts).openedAsDocument ≠ some s) := by
  constructor
  · intro o h
    rw [checkForBackupFile_offered] at h
    exact (findOrphaned_qualifies h).1
  · intro s _ hlock
    constructor
    · rw [checkForBackupFile_deleted]
      split
      · simp
      · exact not_mem_filter_lockable hlock staleFiles
    · rw [checkForBackupFile_openedAsDocument]
      split
      · cases hfo : findOrphaned sourceTime staleFiles with
        | none => simp
        | some o =>
          intro hcontra
          rw [Option.some.injEq] at hcontra
          subst hcontra
          rw [(findOrphaned_qualifies hfo).1] at hlock
          cases hlock
      · simp

/-- C3 witness: for one live (locked) and one stale (lock-acquirable)
companion of the same target, the lock-acquirable one is the offer and the
live one is left untouched. -/
theorem checkForBackupFile_skips_locked_witness :
    (⟨1, true, 50⟩ : StaleFile).lockable = true ∧
    ((⟨0, false, 50⟩ : StaleFile) ∉
        (checkForBackupFile [⟨0, false, 50⟩, ⟨1, true, 50⟩] none true).deleted ∧
      (checkForBackupFile [⟨0, false, 50⟩, ⟨1, true, 50⟩] none true).openedAsDocument ≠
        some ⟨0, false, 50⟩) :=
  ⟨(checkForBackupFile_skips_locked [⟨0, false, 50⟩, ⟨1, true, 50⟩] none true).1
      ⟨1, true, 50⟩ (by decide),
    (checkForBackupFile_skips_locked [⟨0, false, 50⟩, ⟨1, true, 50⟩] none true).2
      ⟨0, false, 50⟩ (by decide) rfl⟩

/-- C4 counterexample: with two stale qualifying candidates, mtimes 5 and 10,
enumerated oldest first and no source file, the detector offers the one with
mtime 5 — not the newest qualifying candidate.  The claim's selection rule
is therefore false of the code. -/
theorem checkForBackupFile_offers_first_not_newest : ¬ OffersNewestQualifying := by
  intro h
  have h10 := h [⟨0, true, 5⟩, ⟨1, true, 10⟩] none true ⟨0, true, 5⟩ (by decide)
    ⟨1, true, 10⟩ (by decide) (by decide) (by decide)
  exact absurd h10 (by decide)

/-- C4 amended: the candidate offered for recovery is the **first** (in
enumeration order) stale candidate that qualifies — lock acquirable, and the
target's own modification time absent or older — and when no candidate
qualifies, none is offered and every lock-acquirable candidate is deleted
(none is opened as a document). -/
theorem checkForBackupFile_first_qualifying (staleFiles : List StaleFile)
    (sourceTime : Option Int) (userAccepts : Bool) :
    (∀ o, (checkForBackupFile staleFiles sourceTime userAccepts).offered = some o →
      o.lockable = true ∧ newerThanSource sourceTime o = true ∧
      ∃ l1 l2, staleFiles = l1 ++ o :: l2 ∧
        ∀ s ∈ l1, (s.lockable && newerThanSource sourceTime s) = false) ∧
    ((∀ s ∈ staleFiles, (s.lockable && newerThanSource sourceTime s) = false) →
      (checkForBackupFile staleFiles sourceTime userAccepts).offered = none ∧
      (checkForBackupFile staleFiles sourceTime userAccepts).deleted =
        staleFiles.filter (fun s => s.lockable) ∧
      (checkForBackupFile staleFiles sourceTime userAccepts).openedAsDocument = none) := by
  constructor
  · intro o h
    rw [checkForBackupFile_offered] at h
    obtain ⟨h1, h2⟩ := findOrphaned_qualifies h
    obtain ⟨l1, l2, hsplit, hfail⟩ := findOrphaned_first h
    exact ⟨h1, h2, l1, l2, hsplit, hfail⟩
  · intro hall
    have hfo := findOrphaned_none hall
    refine ⟨?_, ?_, ?_⟩
    · rw [checkForBackupFile_offered, hfo]
    · rw [checkForBackupFile_deleted, hfo]
      simp
    · rw [checkForBackupFile_openedAsDocument, hfo]
      simp

/-- C4 witness: (a) with a locked candidate enumerated before a stale
qualifying one, the offer is the first qualifying candidate, with the
witnessed split; (b) with a single stale candidate older than the target
file, nothing is offered and the candidate is deleted. -/
theorem checkForBackupFile_first_qualifying_witness :
    ((⟨1, true, 7⟩ : StaleFile).lockable = true ∧
      newerThanSource none ⟨1, true, 7⟩ = true ∧
      ∃ l1 l2, [⟨0, false, 7⟩, ⟨1, true, 7⟩] = l1 ++ (⟨1, true, 7⟩ : StaleFile) :: l2 ∧
        ∀ s ∈ l1, (s.lockable && newerThanSource none s) = false) ∧
    ((checkForBackupFile [⟨2, true, 3⟩] (some 10) true).offered = none ∧
      (checkForBackupFile [⟨2, true, 3⟩] (some 10) true).deleted =
        List.filter (fun s => s.lockable) [⟨2, true, 3⟩] ∧
      (checkForBackupFile [⟨2, true, 3⟩] (some 10) true).openedAsDocument = none) :=
  ⟨(checkForBackupFile_first_qualifying [⟨0, false, 7⟩, ⟨1, true, 7⟩] none false).1
      ⟨1, true, 7⟩ (by decide),
    (checkForBackupFile_first_qualifying [⟨2, true, 3⟩] (some 10) true).2 (by decide)⟩

end Detector

namespace AtomicSave

/-- C1: `testSaveFileAs` is atomic — it returns `true` exactly when both the
staged open and the commit succeed, in which case the destination holds
exactly the serialized scene text; on any failure it returns `false` and the
destination keeps its previous content (no partial file exists in either
case). -/
theorem testSaveFileAs_atomic (scene : String) (dest0 : Option String)
    (openOk commitOk : Bool) :
    testSaveFileAs scene dest0 openOk commitOk =
      ((openOk && commitOk), if openOk && commitOk then some scene else dest0) := by
  cases openOk <;> cases commitOk <;>
    simp [testSaveFileAs, QSaveFile.openFile, QSaveFile.writeData, QSaveFile.commitFile]

end AtomicSave

namespace Save

/-- C5: when `saveSceneList` fails (the destination cannot be opened for
writing), `saveFileAs` returns `false` and the document's modified flag,
bound url and autosave-companion path are all unchanged. -/
theorem saveFileAs_writeFailure_preserves_state (hash : String → String) (st : DocState)
    (outputFileName : String) (saveACopy : Bool) :
    (saveFileAs hash st outputFileName saveACopy false).1 = false ∧
    (saveFileAs hash st outputFileName saveACopy false).2.url = st.url ∧
    (saveFileAs hash st outputFileName saveACopy false).2.modified = st.modified ∧
    (saveFileAs hash st outputFileName saveACopy false).2.autosavePath = st.autosavePath := by
  simp [saveFileAs]

end Save

namespace Autosave

/-- C6: on an edit notification, the scheduler performs the autosave at once
(timer stopped) when more than 300000 ms have passed since the last save,
and otherwise (re)arms the single-shot timer at 3000 ms — whatever its
previous state, so a new edit inside the window restarts the 3-second
countdown — with no immediate save. -/
theorem slotStartAutoSave_debounce (st : SchedulerState) (sceneRaw : String)
    (pattern : List (String × String)) :
    (300000 < st.lastSaveElapsedMs →
      (slotStartAutoSave st sceneRaw pattern).1.timerArmed = none ∧
      (slotStartAutoSave st sceneRaw pattern).2 = some (slotAutoSave sceneRaw pattern)) ∧
    (st.lastSaveElapsedMs ≤ 300000 →
      (slotStartAutoSave st sceneRaw pattern).1.timerArmed = some 3000 ∧
      (slotStartAutoSave st sceneRaw pattern).2 = none) := by
  constructor
  · intro h
    simp [slotStartAutoSave, h]
  · intro h
    simp [slotStartAutoSave, Nat.not_lt.mpr h]

/-- C6 witness: elapsed 300001 ms forces an immediate autosave; elapsed 7 ms
re-arms the timer at 3000 ms. -/
theorem slotStartAutoSave_debounce_witness :
    ((slotStartAutoSave ⟨none, 300001⟩ "s" []).1.timerArmed = none ∧
      (slotStartAutoSave ⟨none, 300001⟩ "s" []).2 = some (slotAutoSave "s" [])) ∧
    ((slotStartAutoSave ⟨none, 7⟩ "s" []).1.timerArmed = some 3000 ∧
      (slotStartAutoSave ⟨none, 7⟩ "s" []).2 = none) :=
  ⟨(slotStartAutoSave_debounce ⟨none, 300001⟩ "s" []).1 (by decide),
    (slotStartAutoSave_debounce ⟨none, 7⟩ "s" []).2 (by decide)⟩

/-- C7: an autosave whose pattern-rewritten scene text holds no `"<track "`
marker writes nothing (the existing companion is untouched) and surfaces the
corruption warning; when the marker is present the rewritten text is written
and no warning is shown. -/
theorem slotAutoSave_corruption_guard (sceneRaw : String)
    (pattern : List (String × String)) :
    (sceneHasTrack (applyReplacementPattern pattern sceneRaw) = false →
      (slotAutoSave sceneRaw pattern).written = none ∧
      (slotAutoSave sceneRaw pattern).corruptionWarning = true ∧
      (slotAutoSave sceneRaw pattern).lastSaveRestarted = false) ∧
    (sceneHasTrack (applyReplacementPattern pattern sceneRaw) = true →
      (slotAutoSave sceneRaw pattern).written =
        some (applyReplacementPattern pattern sceneRaw) ∧
      (slotAutoSave sceneRaw pattern).corruptionWarning = false) := by
  constructor
  · intro h
    simp [slotAutoSave, h]
  · intro h
    simp [slotAutoSave, h]

/-- C7 witness: a trackless scene is skipped with a warning; a scene with a
track element is written. -/
theorem slotAutoSave_corruption_guard_witness :
    ((slotAutoSave "no tracks here" []).written = none ∧
      (slotAutoSave "no tracks here" []).corruptionWarning = true ∧
      (slotAutoSave "no tracks here" []).lastSaveRestarted = false) ∧
    ((slotAutoSave "a<track b" []).written =
        some (applyReplacementPattern [] "a<track b") ∧
      (slotAutoSave "a<track b" []).corruptionWarning = false) :=
  ⟨(slotAutoSave_corruption_guard "no tracks here" []).1 (by decide),
    (slotAutoSave_corruption_guard "a<track b" []).2 (by decide)⟩

end Autosave

namespace Serialize

/-- C10 counterexample: starting from a state whose mixer monitoring is
paused (inactive), `projectSceneList` returns with it unpaused — the mixer
monitoring state is *not* restored, so serialization is not side-effect-free
on all four toggles as claimed. -/
theorem projectSceneList_mixer_not_restored :
    (projectSceneList ⟨false, false, false, true⟩).mixerPaused ≠
      (⟨false, false, false, true⟩ : SessionToggles).mixerPaused := by decide

/-- C10 amended: `projectSceneList` restores the multitrack view, the
timeline preview connection and the trimming mode to their states before the
call; mixer monitoring, however, is unconditionally left unpaused (the
source pauses and unpauses it without reading its prior state). -/
theorem projectSceneList_restores_toggles (st : SessionToggles) :
    (projectSceneList st).multiTrackView = st.multiTrackView ∧
    (projectSceneList st).previewConnected = st.previewConnected ∧
    (projectSceneList st).trimmingMode = st.trimmingMode ∧
    (projectSceneList st).mixerPaused = false := by
  obtain ⟨a, b, c, d⟩ := st
  revert a b c d
  decide

end Serialize

namespace Relocation

/-- C8: on a successful move, the replacement pattern is keyed on the
relative `">proxy/"` (mapped to `">" ++ newFolder ++ "/proxy/"`) exactly when
the old temp folder lies inside the project file's directory, and on the full
`tempFolder ++ "/proxy/"` otherwise; the pattern is in force for exactly one
save, is empty once the relocation completes, and the save is followed by a
revert. -/
theorem slotMoveFinished_pattern (newFolder projectDirPath tempFolder : String)
    (pattern0 : List (String × String)) (folder0 : String) :
    (pathStartsWith tempFolder projectDirPath = true →
      (slotMoveFinished true newFolder projectDirPath tempFolder pattern0 folder0).events =
        [Ev.save (insertPattern pattern0 ">proxy/" (">" ++ newFolder ++ "/proxy/")),
          Ev.revert]) ∧
    (pathStartsWith tempFolder projectDirPath = false →
      (slotMoveFinished true newFolder projectDirPath tempFolder pattern0 folder0).events =
        [Ev.save (insertPattern pattern0 (tempFolder ++ "/proxy/") (newFolder ++ "/proxy/")),
          Ev.revert]) ∧
    (slotMoveFinished true newFolder projectDirPath tempFolder pattern0 folder0).patternAfter
      = [] ∧
    (slotMoveFinished true newFolder projectDirPath tempFolder pattern0 folder0).projectFolder
      = newFolder := by
  refine ⟨fun h => ?_, fun h => ?_, ?_, ?_⟩ <;>
    simp [slotMoveFinished] <;> simp [*]

/-- C8 witness: a temp folder inside the project directory yields the
relative `">proxy/"` key; one outside yields the full-path key. -/
theorem slotMoveFinished_pattern_witness :
    ((slotMoveFinished true "/new/tmp" "/old" "/old/tmp" [] "/old/tmp").events =
      [Ev.save (insertPattern [] ">proxy/" (">" ++ "/new/tmp" ++ "/proxy/")), Ev.revert]) ∧
    ((slotMoveFinished true "/new/tmp" "/proj" "/other/tmp" [] "/other/tmp").events =
      [Ev.save (insertPattern [] ("/other/tmp" ++ "/proxy/") ("/new/tmp" ++ "/proxy/")),
        Ev.revert]) :=
  ⟨(slotMoveFinished_pattern "/new/tmp" "/old" "/old/tmp" [] "/old/tmp").1 (by decide),
    (slotMoveFinished_pattern "/new/tmp" "/proj" "/other/tmp" [] "/other/tmp").2.1 (by decide)⟩

end Relocation

namespace Migration

/-- C9: during profile migration every guide record carrying a position is
rescaled to `qRound(pos * newFps / oldFps)`; in particular a guide at frame
100 under a 25 fps profile converted to a 50 fps profile lands on frame
200. -/
theorem saveWithUpdatedProfile_rescales_guides (newFps oldFps : ℚ) (g : Guide) (p : ℤ)
    (hp : g.pos = some p) :
    updateGuide (fpsRatio newFps oldFps) g =
      some { g with pos := some (qRound (p * (newFps / oldFps))) } ∧
    updateGuides (fpsRatio 50 25) [⟨some 100, "g", 0⟩] = [⟨some 200, "g", 0⟩] := by
  constructor
  · simp [updateGuide, fpsRatio, hp]
  · simp only [updateGuides, updateGuide, fpsRatio, List.filterMap]
    norm_num [qRound]

/-- C9 witness: a guide at frame 7 under 25 fps migrated to 30 fps is
rescaled by `qRound`, and the 25 fps → 50 fps conversion maps frame 100 to
frame 200. -/
theorem saveWithUpdatedProfile_rescales_guides_witness :
    (updateGuide (fpsRatio 30 25) ⟨some 7, "c", 1⟩ =
      some ⟨some (qRound ((7 : ℤ) * ((30 : ℚ) / 25))), "c", 1⟩ ∧
    updateGuides (fpsRatio 50 25) [⟨some 100, "g", 0⟩] = [⟨some 200, "g", 0⟩]) :=
  saveWithUpdatedProfile_rescales_guides 30 25 ⟨some 7, "c", 1⟩ 7 rfl

end Migration

namespace Session

/-- A close that reports success has destroyed the active document. -/
theorem closeCurrentDocument_true {env : Env} {st : St} {saveChanges : Bool} {st' : St}
    (h : closeCurrentDocument env st saveChanges = (st', true)) : st'.project = none := by
  simp only [closeCurrentDocument] at h
  split at h
  · split at h
    · split at h
      · rw [Prod.mk.injEq] at h
        rw [← h.1]
      · rw [Prod.mk.injEq] at h
        exact Bool.noConfusion h.2
    · rw [Prod.mk.injEq] at h
      exact Bool.noConfusion h.2
    · rw [Prod.mk.injEq] at h
      rw [← h.1]
  · rw [Prod.mk.injEq] at h
    rw [← h.1]

/-- A refused close (Cancel, or a failed save) leaves the document untouched,
and only happens for a modified document. -/
theorem closeCurrentDocument_false {env : Env} {st : St} {saveChanges : Bool} {st' : St}
    (h : closeCurrentDocument env st saveChanges = (st', false)) :
    st'.project = st.project ∧ projectModified st = true := by
  simp only [closeCurrentDocument] at h
  split at h
  · rename_i hcond
    simp only [Bool.and_eq_true] at hcond
    split at h
    · split at h
      · rw [Prod.mk.injEq] at h
        exact Bool.noConfusion h.2
      · rw [Prod.mk.injEq] at h
        exact ⟨by rw [← h.1]; rfl, hcond.1⟩
    · rw [Prod.mk.injEq] at h
      exact ⟨by rw [← h.1]; rfl, hcond.1⟩
    · rw [Prod.mk.injEq] at h
      exact Bool.noConfusion h.2
  · rw [Prod.mk.injEq] at h
    exact Bool.noConfusion h.2

/-- A close without save-confirmation always succeeds and destroys the
document (the prompt of lines 347-368 is skipped). -/
theorem closeCurrentDocument_noSave (env : Env) (st : St) :
    closeCurrentDocument env st false = ({ st with project := none }, true) := by
  unfold closeCurrentDocument
  simp

/-- A state reporting a modified document holds one. -/
theorem projectModified_spec (st : St) (h : projectModified st = true) :
    ∃ d, st.project = some d ∧ d.modified = true := by
  unfold projectModified at h
  cases hp : st.project with
  | none => rw [hp] at h; exact Bool.noConfusion h
  | some d => rw [hp] at h; exact ⟨d, rfl, h⟩

/-- Clearing every modified flag (line 1080) establishes `okSt`. -/
theorem okSt_clearModified (st : St) :
    okSt { st with project := st.project.map (fun d => { d with modified := false }) } := by
  intro d hd
  simp only [Option.map_eq_some'] at hd
  obtain ⟨a, -, ha⟩ := hd
  rw [← ha]
  exact Or.inr rfl

/-- The fallback invariant of the whole open/recovery web, by induction on
the fuel: a `doOpenFile` or `newFile` entered from a state whose document is
built or unmodified, and any completed `requestBackup`, `updateTimeline` or
`finishOpen`, ends with a fully built active document; `slotOpenBackup` and
`checkForBackupFile` either do so (reporting `true`) or leave the active
document unchanged (reporting `false`). -/
theorem session_invariant (fuel : Nat) :
    (∀ env st staleGiven isBackup st',
        doOpenFile fuel env st staleGiven isBackup = some st' → okSt st → goodSt st') ∧
    (∀ env st st', newFile fuel env st = some st' → okSt st → goodSt st') ∧
    (∀ env st st', requestBackup fuel env st = some st' → goodSt st') ∧
    (∀ env st st' b, updateTimeline fuel env st = some (st', b) →
        st.project.isSome = true → goodSt st') ∧
    (∀ env st st' b, slotOpenBackup fuel env st = some (st', b) →
        (b = true → goodSt st') ∧ (b = false → st'.project = st.project)) ∧
    (∀ env st st' b, checkForBackupFile fuel env st = some (st', b) → okSt st →
        (b = true → goodSt st') ∧ (b = false → st'.project = st.project)) ∧
    (∀ env st staleGiven st', finishOpen fuel env st staleGiven = some st' → goodSt st') := by
  induction fuel with
  | zero =>
    refine ⟨?_, ?_, ?_, ?_, ?_, ?_, ?_⟩
    · intro env st sg ib st' h
      simp [doOpenFile] at h
    · intro env st st' h
      simp [newFile] at h
    · intro env st st' h
      simp [requestBackup] at h
    · intro env st st' b h
      simp [updateTimeline] at h
    · intro env st st' b h
      simp [slotOpenBackup] at h
    · intro env st st' b h
      simp [checkForBackupFile] at h
    · intro env st sg st' h
      simp [finishOpen] at h
  | succ n ih =>
    obtain ⟨ihD, ihN, ihR, ihU, ihS, ihC, ihF⟩ := ih
    refine ⟨?_, ?_, ?_, ?_, ?_, ?_, ?_⟩
    · -- doOpenFile
      intro env st sg ib st' h hok
      simp only [doOpenFile] at h
      split at h
      · split at h
        · -- Open Backup
          split at h
          · exact Option.noConfusion h
          · rename_i st1 bb heq
            have hSpec := ihS env (bump (bump st)) st1 bb heq
            have hok1 : okSt st1 := by
              cases bb with
              | true =>
                obtain ⟨d, hd, hb⟩ := hSpec.1 rfl
                intro d' hd'
                rw [hd] at hd'
                rw [Option.some.injEq] at hd'
                rw [← hd']
                exact Or.inl hb
              | false =>
                have hp := hSpec.2 rfl
                intro d' hd'
                rw [hp] at hd'
                exact hok d' hd'
            exact ihN env st1 st' h hok1
        · -- Recover
          split at h
          · exact ihF env (bump (bump (bump st))) sg st' h
          · exact ihN env (bump (bump (bump st))) st' h hok
        · -- Cancel
          exact ihN env (bump (bump st)) st' h hok
      · split at h
        · exact ihN env (bump st) st' h hok
        · exact ihF env (bump st) sg st' h
    · -- newFile
      intro env st st' h hok
      simp only [newFile] at h
      split at h
      · exact Option.noConfusion h
      · rename_i st1 heq
        rw [Option.some.injEq] at h
        rw [← h]
        exact (ihC env st st1 true heq hok).1 rfl
      · rename_i st1 heq
        have hproj1 := (ihC env st st1 false heq hok).2 rfl
        split at h
        · -- close refused: the (modified, hence built) document stays
          rename_i hc2
          rw [Option.some.injEq] at h
          have h2 : (closeCurrentDocument env st1 true).2 = false := by
            simpa using hc2
          have hcf : closeCurrentDocument env st1 true = (st', false) := by
            rw [← h, ← h2]
          obtain ⟨hpp, hmod⟩ := closeCurrentDocument_false hcf
          obtain ⟨d, hd, hdm⟩ := projectModified_spec st1 hmod
          have hbuilt : d.built = true := by
            have := hok d (by rw [← hproj1, hd])
            rcases this with hb | hm
            · exact hb
            · rw [hdm] at hm; exact Bool.noConfusion hm
          exact ⟨d, by rw [hpp, hd], hbuilt⟩
        · -- close succeeded: blank document constructed, timeline built
          split at h
          · exact Option.noConfusion h
          · rename_i st4 bb hequ
            rw [Option.some.injEq] at h
            rw [← h]
            exact ihU env _ st4 bb hequ rfl
    · -- requestBackup
      intro env st st' h
      simp only [requestBackup] at h
      split at h
      · split at h
        · exact Option.noConfusion h
        · rename_i st1 heq
          rw [Option.some.injEq] at h
          rw [← h]
          exact (ihS env _ st1 true heq).1 rfl
        · rename_i st1 heq
          have hp := (ihS env _ st1 false heq).2 rfl
          have hok1 : okSt st1 := by
            intro d hd
            rw [hp] at hd
            exact okSt_clearModified st d hd
          exact ihN env st1 st' h hok1
      · exact ihN env _ st' h (okSt_clearModified st)
    · -- updateTimeline
      intro env st st' b h hsome
      simp only [updateTimeline] at h
      split at h
      · split at h
        · exact Option.noConfusion h
        · rename_i st2 heq
          rw [Option.some.injEq, Prod.mk.injEq] at h
          rw [← h.1]
          exact ihR env _ st2 heq
      · split at h
        · split at h
          · exact Option.noConfusion h
          · rename_i st2 heq
            rw [Option.some.injEq, Prod.mk.injEq] at h
            rw [← h.1]
            exact ihR env _ st2 heq
        · rw [Option.some.injEq, Prod.mk.injEq] at h
          obtain ⟨h1, -⟩ := h
          rw [← h1]
          obtain ⟨d, hd⟩ := Option.isSome_iff_exists.mp hsome
          exact ⟨{ d with built := true }, by simp [bump, hd], rfl⟩
    · -- slotOpenBackup
      intro env st st' b h
      simp only [slotOpenBackup] at h
      split at h
      · -- backup dialog accepted
        simp only [closeCurrentDocument_noSave] at h
        split at h
        · exact Option.noConfusion h
        · rename_i st3 heqd
          have hgood3 : goodSt st3 := by
            refine ihD env _ false true st3 heqd ?_
            intro d hd
            exact Option.noConfusion hd
          obtain ⟨d0, hd0, hb0⟩ := hgood3
          split at h
          · rename_i d hp
            rw [Option.some.injEq, Prod.mk.injEq] at h
            obtain ⟨h1, h2⟩ := h
            constructor
            · intro _
              rw [← h1]
              refine ⟨_, rfl, ?_⟩
              rw [hp] at hd0
              rw [Option.some.injEq] at hd0
              have hdb : d.built = true := by rw [hd0]; exact hb0
              split
              · exact hdb
              · exact hdb
            · intro hfb
              rw [← h2] at hfb
              exact Bool.noConfusion hfb
          · rename_i hp
            rw [hp] at hd0
            exact Option.noConfusion hd0
      · -- dialog declined
        rw [Option.some.injEq, Prod.mk.injEq] at h
        obtain ⟨h1, h2⟩ := h
        constructor
        · intro hb
          rw [← h2] at hb
          exact Bool.noConfusion hb
        · intro _
          rw [← h1]
          rfl
    · -- checkForBackupFile
      intro env st st' b h hok
      simp only [checkForBackupFile] at h
      split at h
      · split at h
        · split at h
          · exact Option.noConfusion h
          · rename_i st1 heqd
            rw [Option.some.injEq, Prod.mk.injEq] at h
            obtain ⟨h1, h2⟩ := h
            constructor
            · intro _
              rw [← h1]
              exact ihD env _ true false st1 heqd hok
            · intro hfb
              rw [← h2] at hfb
              exact Bool.noConfusion hfb
        · rw [Option.some.injEq, Prod.mk.injEq] at h
          obtain ⟨h1, h2⟩ := h
          exact ⟨fun hb => Bool.noConfusion (h2.trans hb),
            fun _ => by rw [← h1]; rfl⟩
      · rw [Option.some.injEq, Prod.mk.injEq] at h
        obtain ⟨h1, h2⟩ := h
        exact ⟨fun hb => Bool.noConfusion (h2.trans hb),
          fun _ => by rw [← h1]; rfl⟩
    · -- finishOpen
      intro env st sg st' h
      simp only [finishOpen] at h
      split at h
      · exact Option.noConfusion h
      · rename_i st4 bb hequ
        rw [Option.some.injEq] at h
        rw [← h]
        exact ihU env _ st4 bb hequ rfl

/-- C2: whenever `doOpenFile` returns — whatever the environment does:
parse failures, declined or failed recoveries, zero-track timelines — the
controller holds an active document whose timeline construction completed:
either a successfully opened (or recovered/backup) document or a fresh blank
one, never no document and never a half-constructed one.  The precondition
`okSt` says the entry state's document, if any, is itself built or
unmodified (`doOpenFile` is entered with no document, or re-entered through
the fallback web, which guarantees it). -/
theorem doOpenFile_never_half_constructed (fuel : Nat) (env : Env) (st : St)
    (staleGiven isBackup : Bool) (st' : St) (hok : okSt st)
    (h : doOpenFile fuel env st staleGiven isBackup = some st') :
    ∃ d, st'.project = some d ∧ d.built = true ∧
      (d.kind = DocKind.loaded ∨ d.kind = DocKind.blank) := by
  obtain ⟨d, hd, hb⟩ := (session_invariant fuel).1 env st staleGiven isBackup st' h hok
  refine ⟨d, hd, hb, ?_⟩
  cases hdk : d.kind
  · exact Or.inr rfl
  · exact Or.inl rfl

/-- C2 witness: a clean open from `NoDocument` in the all-ok environment
ends with a fully built loaded document. -/
theorem doOpenFile_never_half_constructed_witness :
    ∃ d, (St.mk (some (Doc.mk DocKind.loaded true false false)) 5).project = some d ∧
      d.built = true ∧ (d.kind = DocKind.loaded ∨ d.kind = DocKind.blank) :=
  doOpenFile_never_half_constructed 5 envAllOk ⟨none, 0⟩ false false
    ⟨some ⟨DocKind.loaded, true, false, false⟩, 5⟩
    (fun _ h => Option.noConfusion h) rfl

end Session

end Kdenlive
